import Mathlib

/-!
Verification of the DadDeck API Python SDK
(`src/public/api/examples/dadddeck_api.py`).

This file is a shallow embedding of the SDK's core request/response
pipeline: the `APIError` value with its retry-delay query, the rate-limit
header parser, the `_request` primitive, the `fetch_with_retry`
orchestrator and the `get_all_cards` pagination aggregator.  Python
exceptions are modelled with `Except`; wall-clock time is an explicit
`Int` parameter measured in milliseconds since the epoch; Python floats
holding delays in seconds are modelled as `Rat` (the delay arithmetic
used here — division by 1000, `max`, multiplication by 2.0 — is exact on
the values the theorems touch).
-/

deriving instance DecidableEq for Except

/-- Python's two-argument `max(a, b)`: returns `b` exactly when
`a < b`.  Equal to `Max.max` on `Rat` (see `pymax_eq_max`); spelled out
so that closed runs of the retry loop evaluate by `decide`. -/
def pymax (a b : Rat) : Rat := if a < b then b else a

/-- Python's two-argument `max(a, b)` on integers. -/
def pymaxI (a b : Int) : Int := if a < b then b else a

theorem pymaxI_eq_max (a b : Int) : pymaxI a b = max a b := by
  unfold pymaxI
  rcases lt_or_le a b with h | h
  · rw [if_pos h]
    exact (max_eq_right h.le).symm
  · rw [if_neg (not_lt.mpr h)]
    exact (max_eq_left h).symm

theorem pymax_eq_max (a b : Rat) : pymax a b = max a b := by
  unfold pymax
  rcases lt_or_le a b with h | h
  · rw [if_pos h]
    exact (max_eq_right h.le).symm
  · rw [if_neg (not_lt.mpr h)]
    exact (max_eq_left h).symm

/-- One step of decimal-digit accumulation for `pyInt?`. -/
def digitsGo (acc : Nat) : List Char → Option Nat
  | [] => some acc
  | c :: cs => if c.isDigit then digitsGo (acc * 10 + (c.toNat - 48)) cs else none

/-- A non-empty run of decimal digits, else `none`. -/
def pyDigits? : List Char → Option Nat
  | [] => none
  | cs => digitsGo 0 cs

/-- Python's `int(s)` on a base-10 string: an optional sign followed by
at least one digit, else a raised `ValueError` (`none` here).  The
whitespace trimming and underscore separators Python additionally
accepts play no role in this development. -/
def pyInt? (s : String) : Option Int :=
  match s.data with
  | [] => none
  | '+' :: cs => (pyDigits? cs).map Int.ofNat
  | '-' :: cs => (pyDigits? cs).map (fun n => -(n : Int))
  | cs => (pyDigits? cs).map Int.ofNat

/-- Python exceptions other than `APIError` that the embedded code can
raise: `ValueError` from `int()` on a non-numeric string,
`AttributeError` from accessing a missing attribute (e.g. `.get` on a
`RateLimitInfo` dataclass), `TypeError` from binding an unexpected
keyword argument. -/
inductive PyExc
  | valueError
  | attributeError
  | typeError
  deriving DecidableEq

/-- The `RateLimitInfo` dataclass (source lines 87-93).  `reset_at` is
the parsed `datetime`, modelled as milliseconds since the epoch, UTC. -/
structure RateLimitInfo where
  limit : Int
  remaining : Int
  reset_at : Option Int
  tier : String
  deriving DecidableEq

/-- The runtime value bound to `APIError.rate_limit`.  The constructor
annotation (source line 50) declares `Optional[Dict[str, Any]]` and
`get_retry_delay` reads it with `.get("resetAt")`, i.e. expects a dict
with an optional `resetAt` timestamp (modelled in epoch milliseconds);
but `_request` (line 196) actually passes the `RateLimitInfo` dataclass
returned by `_parse_rate_limit_headers`.  Both runtime shapes are
represented. -/
inductive RLPayload
  | dictPayload (resetAt : Option Int)
  | infoPayload (info : RateLimitInfo)
  deriving DecidableEq

/-- The `APIError` exception value (source lines 33-58). -/
structure APIError where
  code : String
  message : String
  status : Option Int := none
  rate_limit : Option RLPayload := none
  request_id : Option String := none
  deriving DecidableEq

/-- `APIError.is_rate_limit_error` (source lines 60-62). -/
def APIError.is_rate_limit_error (e : APIError) : Bool :=
  e.code == "RATE_LIMIT_EXCEEDED"

/-- `APIError.is_auth_error` (source lines 64-66). -/
def APIError.is_auth_error (e : APIError) : Bool :=
  e.code == "UNAUTHORIZED"

/-- `APIError.get_retry_delay` (source lines 68-81), parametrised by the
current wall-clock time `now` in epoch milliseconds (the source reads
`datetime.now(timezone.utc)` at each call).  The Python guard is
`if self.rate_limit and self.rate_limit.get("resetAt"):`
- `rate_limit` absent (None): falsy, return the 60000 ms default;
- dict payload: `.get("resetAt")` succeeds; a missing or falsy value
  (modelled by `none` / timestamp `0`) yields the default, otherwise
  `max(0, resetAt - now)`;
- `RateLimitInfo` dataclass payload: truthy, but `.get` is not an
  attribute of the dataclass, so the call raises `AttributeError`. -/
def APIError.get_retry_delay (e : APIError) (now : Int) : Except PyExc Int :=
  match e.rate_limit with
  | none => .ok 60000
  | some (.infoPayload _) => .error .attributeError
  | some (.dictPayload none) => .ok 60000
  | some (.dictPayload (some resetAt)) =>
      if resetAt = 0 then .ok 60000
      else .ok (pymaxI 0 (resetAt - now))

/-- The nested `error` object of an error envelope body. -/
structure ErrObj where
  code : Option String := none
  message : Option String := none
  deriving DecidableEq

/-- The nested `meta` object of an envelope body. -/
structure MetaObj where
  requestId : Option String := none
  deriving DecidableEq

/-- A JSON field of the body that may be absent, JSON `null`, or an
object.  The distinction matters in `_request`'s error branch:
`error_data.get("error", {})` substitutes `{}` only when the key is
absent — a present `null` value flows on and the subsequent
`.get("code", ...)` raises `AttributeError`. -/
inductive ErrField
  | absent
  | nullVal
  | obj (o : ErrObj)
  deriving DecidableEq

/-- Like `ErrField`, for the body's `meta` key. -/
inductive MetaField
  | absent
  | nullVal
  | obj (m : MetaObj)
  deriving DecidableEq

/-- `response_data.get("error")`: absent and `null` both map to `None`. -/
def ErrField.toOpt : ErrField → Option ErrObj
  | .absent => none
  | .nullVal => none
  | .obj o => some o

/-- `error_data.get("error", {})` restricted to the non-crashing shapes:
an absent key defaults to the empty dict `{}` (no `code`/`message`). -/
def ErrField.getObj : ErrField → ErrObj
  | .obj o => o
  | _ => { code := none, message := none }

/-- `response_data.get("meta")`: absent and `null` both map to `None`. -/
def MetaField.toOpt : MetaField → Option MetaObj
  | .absent => none
  | .nullVal => none
  | .obj m => some m

/-- `error_data.get("meta", {}).get("requestId")` restricted to the
non-crashing shapes. -/
def MetaField.requestIdOf : MetaField → Option String
  | .obj m => m.requestId
  | _ => none

/-- A parsed JSON response body.  The `data` payload is opaque to
`_request` (passed through unchanged), modelled by an optional tag. -/
structure Body where
  data : Option String := none
  error : ErrField := .absent
  meta : MetaField := .absent
  deriving DecidableEq

/-- The `ApiResponse` dataclass (source lines 96-110). -/
structure ApiResponse where
  data : Option String := none
  error : Option ErrObj := none
  meta : Option MetaObj := none
  rate_limit : Option RateLimitInfo := none
  deriving DecidableEq

/-- `ApiResponse.success` (source lines 112-115): true iff `error` is
`None`. -/
def ApiResponse.success (r : ApiResponse) : Bool :=
  r.error.isNone

/-- One completed HTTP exchange as seen by `_request`: the numeric
status, the response headers, and the body — `none` when the body is not
parseable JSON (i.e. `response.json()` raises). -/
structure HttpResp where
  status : Int
  headers : String → Option String
  body : Option Body

/-- Outcome of `self.session.request(...)`: a completed exchange, or a
transport failure (`requests.exceptions.Timeout`, other
`requests.exceptions.RequestException`). -/
inductive Transport
  | response (r : HttpResp)
  | timeout
  | netError (msg : String)

/-- What a call into the SDK can raise: an `APIError`, or one of the
plain Python exceptions of `PyExc` (which no SDK handler catches). -/
inductive Raised
  | api (e : APIError)
  | exc (e : PyExc)
  deriving DecidableEq

namespace DadDeckAPI

/-- `DadDeckAPI._parse_rate_limit_headers` (source lines 216-235).
`int()` on a string is modelled by `pyInt?`, with `none` standing for a
raised `ValueError`.  Evaluation order follows the source: the
falsy-limit check (absent or empty string), then `int()` of the
remaining header, then `int()` of the reset header, then `int()` of the
limit itself inside the constructor call.  The parsed reset time is
epoch seconds converted to an absolute timestamp (milliseconds). -/
def _parse_rate_limit_headers (h : String → Option String) :
    Except PyExc (Option RateLimitInfo) :=
  match h "X-RateLimit-Limit" with
  | none => .ok none
  | some l =>
    if l = "" then .ok none
    else
      match (match h "X-RateLimit-Remaining" with
             | none => some (0 : Int)
             | some r => pyInt? r) with
      | none => .error .valueError
      | some remaining =>
        let tier := (h "X-RateLimit-Tier").getD "unknown"
        match (match h "X-RateLimit-Reset" with
               | none => some (none : Option Int)
               | some "" => some none
               | some s => (pyInt? s).map (fun n => some (n * 1000))) with
        | none => .error .valueError
        | some reset_dt =>
          match pyInt? l with
          | none => .error .valueError
          | some lim => .ok (some ⟨lim, remaining, reset_dt, tier⟩)

/-- The `str(e)` of the `JSONDecodeError` raised by `response.json()` on
an unparseable body (representative text). -/
def jsonDecodeMsg : String := "Expecting value: line 1 column 1 (char 0)"

/-- `DadDeckAPI._request` (source lines 152-214), as a function of the
transport outcome; `timeoutS` is the client's configured timeout used in
the TIMEOUT message.  Notes tied to the source:
- rate-limit headers are parsed first (line 186); a `ValueError` raised
  there is caught by no handler in `_request` and propagates;
- `response.ok` in requests is `status_code < 400`, so the error branch
  runs exactly when `400 ≤ status`;
- in either branch an unparseable body makes `response.json()` raise
  `requests.exceptions.JSONDecodeError`, a `RequestException`, which the
  final handler converts to a NETWORK_ERROR `APIError`;
- in the error branch, a body whose `error` (resp. `meta`) key holds
  `null` makes `.get("code", ...)` (resp. `.get("requestId")`) raise
  `AttributeError`, which propagates;
- the `APIError` raised for an error status carries the parsed
  `RateLimitInfo` dataclass itself (`RLPayload.infoPayload`). -/
def _request (timeoutS : Int) (t : Transport) : Except Raised ApiResponse :=
  match t with
  | .timeout =>
      .error (.api ⟨"TIMEOUT", "Request timed out after " ++ toString timeoutS ++ "s",
                    none, none, none⟩)
  | .netError msg => .error (.api ⟨"NETWORK_ERROR", msg, none, none, none⟩)
  | .response r =>
    match _parse_rate_limit_headers r.headers with
    | .error pe => .error (.exc pe)
    | .ok rate_limit =>
      if 400 ≤ r.status then
        match r.body with
        | none => .error (.api ⟨"NETWORK_ERROR", jsonDecodeMsg, none, none, none⟩)
        | some b =>
          if b.error = ErrField.nullVal then .error (.exc .attributeError)
          else if b.meta = MetaField.nullVal then .error (.exc .attributeError)
          else
            .error (.api ⟨(b.error.getObj).code.getD "API_ERROR",
                          (b.error.getObj).message.getD "Unknown error",
                          some r.status,
                          (rate_limit.map RLPayload.infoPayload),
                          b.meta.requestIdOf⟩)
      else
        match r.body with
        | none => .error (.api ⟨"NETWORK_ERROR", jsonDecodeMsg, none, none, none⟩)
        | some b => .ok ⟨b.data, b.error.toOpt, b.meta.toOpt, rate_limit⟩

end DadDeckAPI

/-- Result of a `fetch_with_retry` run: the value returned or exception
raised, instrumented with the number of invocations of the wrapped
operation and the list of `time.sleep` durations (seconds, in order). -/
inductive Outcome (α : Type)
  | ok (v : α)
  | apiErr (e : APIError)
  | pyErr (e : PyExc)
  deriving DecidableEq

/-- Instrumented trace of one `fetch_with_retry` run. -/
structure RetryTrace (α : Type) where
  result : Outcome α
  calls : Nat
  waits : List Rat
  deriving DecidableEq

/-- The terminal error constructed at source line 628. -/
def maxRetriesError : APIError :=
  ⟨"MAX_RETRIES", "Maximum retries exceeded", none, none, none⟩

/-- The loop body of `fetch_with_retry` (source lines 614-628).
`for attempt in range(max_retries)` is encoded structurally: `fuel` is
the number of remaining iterations (`max_retries.toNat - attempt`), and
when it runs out the loop falls through to
`raise APIError("MAX_RETRIES", "Maximum retries exceeded")`.
The wrapped operation is a sequence of per-invocation outcomes
`func : Nat → Except APIError α`; `clock k` is the wall-clock time (ms)
at the `get_retry_delay` query of attempt `k`.  On a rate-limit failure
before the final allowed attempt the code sleeps
`max(e.get_retry_delay() / 1000, delay)` seconds and multiplies `delay`
by the backoff factor; any other `APIError` is re-raised, and a plain
Python exception out of `get_retry_delay` propagates uncaught. -/
def fwrGo {α : Type} (func : Nat → Except APIError α) (maxR : Int) (bf : Rat)
    (clock : Nat → Int) :
    Nat → Nat → Rat → Nat → List Rat → RetryTrace α
  | 0, _, _, calls, waits => ⟨.apiErr maxRetriesError, calls, waits⟩
  | fuel + 1, attempt, delay, calls, waits =>
    match func attempt with
    | .ok v => ⟨.ok v, calls + 1, waits⟩
    | .error e =>
      if e.is_rate_limit_error = true ∧ (attempt : Int) < maxR - 1 then
        match e.get_retry_delay (clock attempt) with
        | .error pe => ⟨.pyErr pe, calls + 1, waits⟩
        | .ok rd =>
            fwrGo func maxR bf clock fuel (attempt + 1) (delay * bf) (calls + 1)
              (waits ++ [pymax ((rd : Rat) / 1000) delay])
      else ⟨.apiErr e, calls + 1, waits⟩

/-- `fetch_with_retry` (source lines 589-628), instrumented. -/
def fetch_with_retry {α : Type} (func : Nat → Except APIError α) (max_retries : Int)
    (initial_delay : Rat) (backoff_factor : Rat) (clock : Nat → Int) : RetryTrace α :=
  fwrGo func max_retries backoff_factor clock max_retries.toNat 0 initial_delay 0 []

/-- The keyword parameters accepted by `CardsAPI.list` (source lines
243-250): `self` aside, exactly `page`, `page_size`, `rarity`, `type`,
`series`, `search`. -/
def cardsListKeywords : List String :=
  ["page", "page_size", "rarity", "type", "series", "search"]

/-- A Python scalar used as a query-parameter value. -/
inductive PyVal
  | intV (n : Int)
  | strV (s : String)
  deriving DecidableEq

/-- What one page of `client.cards.list` yields to `get_all_cards`:
`response.data["cards"]` (opaque card values) and
`response.data["pagination"]["hasNext"]`. -/
structure PageResult where
  cards : List String
  hasNext : Bool
  deriving DecidableEq

/-- Keyword binding of `client.cards.list(**params)`: Python raises
`TypeError` when a keyword is not among `CardsAPI.list`'s parameters;
otherwise the exchange itself is abstracted by `server`, mapping the
bound `page` number to that page's result. -/
def cards_list_call (server : Int → PageResult)
    (kwargs : List (String × PyVal)) : Except PyExc PageResult :=
  if kwargs.all (fun kv => cardsListKeywords.contains kv.1) then
    .ok (server (match (kwargs.filter (fun kv => kv.1 = "page")).head? with
                 | some (_, .intV n) => n
                 | _ => 1))
  else .error .typeError

/-- Result of running the `get_all_cards` loop with bounded fuel: the
accumulated cards on normal exit, a raised exception, or `outOfFuel`
when the `while has_more` loop is still running after `fuel`
iterations. -/
inductive LoopOut
  | done (cards : List String)
  | raised (e : PyExc)
  | outOfFuel (acc : List String)
  deriving DecidableEq

/-- The `while has_more` loop of `get_all_cards` (source lines 650-662),
instrumented with the number of `cards.list` calls.  Each iteration
builds `params = {**(filters or {}), "page": page, "pageSize": 100}` and
invokes `client.cards.list(**params)`; on success it extends the
accumulator with the page's cards, reads `hasNext`, and increments
`page`.  The source loop has no other exit: no safety cap exists, which
is what the explicit `fuel` makes visible. -/
def gacLoop (server : Int → PageResult) (filters : List (String × PyVal)) :
    Nat → Int → List String → Nat → LoopOut × Nat
  | 0, _, acc, calls => (.outOfFuel acc, calls)
  | fuel + 1, page, acc, calls =>
    match cards_list_call server
        (filters ++ [("page", .intV page), ("pageSize", .intV 100)]) with
    | .error e => (.raised e, calls + 1)
    | .ok pr =>
      if pr.hasNext then
        gacLoop server filters fuel (page + 1) (acc ++ pr.cards) (calls + 1)
      else (.done (acc ++ pr.cards), calls + 1)

/-- `get_all_cards` (source lines 631-662): starts at `page = 1` with an
empty accumulator. -/
def get_all_cards (server : Int → PageResult) (filters : List (String × PyVal))
    (fuel : Nat) : LoopOut × Nat :=
  gacLoop server filters fuel 1 [] 0

/-! ## General lemmas about the embedded operations -/

/-- One non-final rate-limited iteration of the retry loop: sleep
`max(get_retry_delay() / 1000, delay)` seconds, scale the backoff delay,
move to the next attempt. -/
theorem fwrGo_step_rl {α : Type} (func : Nat → Except APIError α) (maxR : Int)
    (bf : Rat) (clock : Nat → Int) (fuel attempt : Nat) (delay : Rat) (calls : Nat)
    (waits : List Rat) (e : APIError) (rd : Int)
    (hf : func attempt = .error e) (hrl : e.is_rate_limit_error = true)
    (hlt : (attempt : Int) < maxR - 1)
    (hrd : e.get_retry_delay (clock attempt) = .ok rd) :
    fwrGo func maxR bf clock (fuel + 1) attempt delay calls waits =
      fwrGo func maxR bf clock fuel (attempt + 1) (delay * bf) (calls + 1)
        (waits ++ [pymax ((rd : Rat) / 1000) delay]) := by
  simp only [fwrGo, hf]
  rw [if_pos ⟨hrl, hlt⟩]
  simp only [hrd]

/-- An iteration that re-raises: either the error is not a rate-limit
error, or the attempt is the final allowed one. -/
theorem fwrGo_reraise {α : Type} (func : Nat → Except APIError α) (maxR : Int)
    (bf : Rat) (clock : Nat → Int) (fuel attempt : Nat) (delay : Rat) (calls : Nat)
    (waits : List Rat) (e : APIError)
    (hf : func attempt = .error e)
    (hc : ¬ (e.is_rate_limit_error = true ∧ (attempt : Int) < maxR - 1)) :
    fwrGo func maxR bf clock (fuel + 1) attempt delay calls waits =
      ⟨.apiErr e, calls + 1, waits⟩ := by
  simp only [fwrGo, hf]
  rw [if_neg hc]

/-- Success branch of `_request`: status below 400 (requests'
`response.ok`) with a parseable body returns the envelope fields as an
`ApiResponse` and raises nothing. -/
theorem request_ok_eq (tmo : Int) (r : HttpResp) (b : Body) (rl : Option RateLimitInfo)
    (hlt : r.status < 400) (hb : r.body = some b)
    (hh : DadDeckAPI._parse_rate_limit_headers r.headers = .ok rl) :
    DadDeckAPI._request tmo (.response r) =
      .ok ⟨b.data, b.error.toOpt, b.meta.toOpt, rl⟩ := by
  simp only [DadDeckAPI._request, hh, hb]
  rw [if_neg (not_le.mpr hlt)]

/-- Error branch of `_request`: status at least 400 with a parseable
body whose `error`/`meta` fields are not `null` raises an `APIError`
built from the nested error object with the documented defaults. -/
theorem request_error_eq (tmo : Int) (r : HttpResp) (b : Body) (rl : Option RateLimitInfo)
    (hge : 400 ≤ r.status) (hb : r.body = some b)
    (hh : DadDeckAPI._parse_rate_limit_headers r.headers = .ok rl)
    (he : b.error ≠ ErrField.nullVal) (hm : b.meta ≠ MetaField.nullVal) :
    DadDeckAPI._request tmo (.response r) =
      .error (.api ⟨(b.error.getObj).code.getD "API_ERROR",
                    (b.error.getObj).message.getD "Unknown error",
                    some r.status, rl.map RLPayload.infoPayload,
                    b.meta.requestIdOf⟩) := by
  simp only [DadDeckAPI._request, hh, hb]
  rw [if_pos hge, if_neg he, if_neg hm]

/-! ## Claim theorems -/

/-- An operation that raises a rate-limit error on every invocation
(no rate-limit payload attached, so `get_retry_delay` returns the
60000 ms default). -/
def rlError : APIError := ⟨"RATE_LIMIT_EXCEEDED", "Too many requests", some 429, none, none⟩

/-- The always-rate-limited operation. -/
def rlFunc : Nat → Except APIError Unit := fun _ => .error rlError

/-- C1: with `max_retries = 3` against an operation that raises a
rate-limit `APIError` on every invocation, `fetch_with_retry` invokes
the operation exactly 3 times and then re-raises the underlying
RATE_LIMIT_EXCEEDED error itself — not the distinct terminal MAX_RETRIES
error the claim describes.  On the final allowed attempt the guard
`attempt < max_retries - 1` fails and the bare `raise` re-raises `e`
(source line 626), so `raise APIError("MAX_RETRIES", ...)` at line 628
is unreachable whenever `max_retries ≥ 1`. -/
theorem c1_final_attempt_reraises_rate_limit :
    fetch_with_retry rlFunc 3 1 2 (fun _ => 0) = ⟨.apiErr rlError, 3, [60, 60]⟩ ∧
    rlError.code = "RATE_LIMIT_EXCEEDED" ∧ rlError.code ≠ maxRetriesError.code := by
  refine ⟨?_, rfl, by decide⟩
  norm_num [fetch_with_retry, fwrGo, rlFunc, rlError, APIError.is_rate_limit_error,
    APIError.get_retry_delay, pymax]

/-- C10: with `max_retries ≤ 0`, `range(max_retries)` is empty, so the
loop body never runs: the operation is never invoked, no sleeps occur,
and the terminal MAX_RETRIES error (source line 628) is raised at
once. -/
theorem c10_never_invokes_nonpositive {α : Type} (func : Nat → Except APIError α)
    (max_retries : Int) (d bf : Rat) (clock : Nat → Int)
    (hm : max_retries ≤ 0) :
    fetch_with_retry func max_retries d bf clock = ⟨.apiErr maxRetriesError, 0, []⟩ := by
  have hz : max_retries.toNat = 0 := by omega
  unfold fetch_with_retry
  rw [hz]
  rfl

/-- C10 witness: concrete run with `max_retries = -2`. -/
theorem c10_never_invokes_nonpositive_witness :
    fetch_with_retry (fun _ => (.ok () : Except APIError Unit)) (-2) 1 2 (fun _ => 0) =
      ⟨.apiErr maxRetriesError, 0, []⟩ :=
  c10_never_invokes_nonpositive _ (-2) 1 2 _ (by decide)

/-- C8 counterexample: with `max_retries = 0` the operation whose first
invocation would raise an auth error is never invoked at all (0 calls,
not 1) and the raised error is MAX_RETRIES, not the auth error — so the
claim's "regardless of max_retries" fails at `max_retries ≤ 0`. -/
theorem c8_counterexample :
    fetch_with_retry (fun _ => (.error ⟨"UNAUTHORIZED", "bad key", some 401, none, none⟩ :
        Except APIError Unit)) 0 1 2 (fun _ => 0) = ⟨.apiErr maxRetriesError, 0, []⟩ ∧
    maxRetriesError.code ≠ "UNAUTHORIZED" := by
  exact ⟨by decide, by decide⟩

/-- C8 (amended): for every `max_retries ≥ 1`, an operation whose first
invocation raises a non-rate-limit `APIError` has that same error
re-raised immediately: exactly 1 invocation and 0 waits, for any
initial delay, backoff factor and clock. -/
theorem c8_reraise_first_non_rate_limit {α : Type} (func : Nat → Except APIError α)
    (e : APIError) (max_retries : Int) (d bf : Rat) (clock : Nat → Int)
    (hm : 1 ≤ max_retries) (hf : func 0 = .error e)
    (hrl : e.is_rate_limit_error = false) :
    fetch_with_retry func max_retries d bf clock = ⟨.apiErr e, 1, []⟩ := by
  obtain ⟨n, hn⟩ : ∃ n, max_retries.toNat = n + 1 := ⟨max_retries.toNat - 1, by omega⟩
  unfold fetch_with_retry
  rw [hn]
  exact fwrGo_reraise func max_retries bf clock n 0 d 0 [] e hf
    (fun hc => absurd (hrl ▸ hc.1) (by decide))

/-- C8 witness: an UNAUTHORIZED first failure with `max_retries = 3` is
re-raised after exactly one invocation and no waits. -/
theorem c8_reraise_first_non_rate_limit_witness :
    fetch_with_retry (fun _ => (.error ⟨"UNAUTHORIZED", "bad key", some 401, none, none⟩ :
        Except APIError Unit)) 3 1 2 (fun _ => 0) =
      ⟨.apiErr ⟨"UNAUTHORIZED", "bad key", some 401, none, none⟩, 1, []⟩ :=
  c8_reraise_first_non_rate_limit _ _ 3 1 2 _ (by decide) rfl rfl

/-- C6: against an always-rate-limited operation with `max_retries = 3`,
`initial_delay = 1.0 s`, `backoff_factor = 2.0`, the two waits are
`max(get_retry_delay()/1000, delay)` with the backoff delay equal to 1
before the first wait and multiplied to `1 * 2` before the second, hence
the waits are at least 1 s (1000 ms) and 2 s (2000 ms) respectively. -/
theorem c6_backoff_waits (func : Nat → Except APIError Unit) (e : APIError)
    (clock : Nat → Int) (rd0 rd1 : Int)
    (hf : ∀ k, func k = .error e)
    (hrl : e.is_rate_limit_error = true)
    (h0 : e.get_retry_delay (clock 0) = .ok rd0)
    (h1 : e.get_retry_delay (clock 1) = .ok rd1) :
    fetch_with_retry func 3 1 2 clock =
      ⟨.apiErr e, 3, [pymax ((rd0 : Rat) / 1000) 1, pymax ((rd1 : Rat) / 1000) (1 * 2)]⟩ ∧
    (1 : Rat) ≤ pymax ((rd0 : Rat) / 1000) 1 ∧
    (2 : Rat) ≤ pymax ((rd1 : Rat) / 1000) (1 * 2) := by
  refine ⟨?_, ?_, ?_⟩
  · have t1 := fwrGo_step_rl func 3 2 clock 2 0 1 0 [] e rd0 (hf 0) hrl (by norm_num) h0
    have t2 := fwrGo_step_rl func 3 2 clock 1 1 (1 * 2) 1 [pymax ((rd0 : Rat) / 1000) 1]
      e rd1 (hf 1) hrl (by norm_num) h1
    have t3 := fwrGo_reraise func 3 2 clock 0 2 ((1 * 2) * 2) 2
      [pymax ((rd0 : Rat) / 1000) 1, pymax ((rd1 : Rat) / 1000) (1 * 2)] e (hf 2)
      (fun hc => absurd hc.2 (by norm_num))
    exact t1.trans (t2.trans t3)
  · rw [pymax_eq_max]
    exact le_max_right _ _
  · rw [pymax_eq_max]
    calc (2 : Rat) = 1 * 2 := by norm_num
    _ ≤ max ((rd1 : Rat) / 1000) (1 * 2) := le_max_right _ _

/-- C6 witness: a rate-limit error with no payload yields retry delays
of 60000 ms, so both waits are 60 s, which indeed satisfy the bounds. -/
theorem c6_backoff_waits_witness :
    fetch_with_retry (fun _ => (.error ⟨"RATE_LIMIT_EXCEEDED", "slow down", none, none, none⟩ :
        Except APIError Unit)) 3 1 2 (fun _ => 0) =
      ⟨.apiErr ⟨"RATE_LIMIT_EXCEEDED", "slow down", none, none, none⟩, 3,
       [pymax (((60000 : Int) : Rat) / 1000) 1, pymax (((60000 : Int) : Rat) / 1000) (1 * 2)]⟩ ∧
    (1 : Rat) ≤ pymax (((60000 : Int) : Rat) / 1000) 1 ∧
    (2 : Rat) ≤ pymax (((60000 : Int) : Rat) / 1000) (1 * 2) :=
  c6_backoff_waits _ _ _ 60000 60000 (fun _ => rfl) rfl rfl rfl

/-- C2 counterexample: against a server that reports `hasNext = true` on
every page, `get_all_cards` does not run a capped aggregation loop at
all — its very first `cards.list(**params)` call raises `TypeError`
(the keyword `pageSize` is not a parameter of `CardsAPI.list`, whose
parameter is `page_size`), after exactly 1 call and with no cards
accumulated, however much fuel the loop is given. -/
theorem c2_counterexample :
    get_all_cards (fun _ => ⟨["card"], true⟩) [] 1000000 = (.raised .typeError, 1) := by
  decide

/-- C2 (amended): `get_all_cards` has no page-count safety cap; instead,
for every server, every filter set and any positive fuel, the first
`cards.list` call fails to bind the keyword `pageSize` and raises
`TypeError`, so the loop performs exactly one call and terminates only
by crashing. -/
theorem c2_no_safety_cap (server : Int → PageResult) (filters : List (String × PyVal))
    (fuel : Nat) (hfuel : 1 ≤ fuel) :
    get_all_cards server filters fuel = (.raised .typeError, 1) := by
  obtain ⟨n, rfl⟩ : ∃ n, fuel = n + 1 := ⟨fuel - 1, by omega⟩
  have hbad : cards_list_call server
      (filters ++ [("page", PyVal.intV 1), ("pageSize", PyVal.intV 100)]) =
      .error .typeError := by
    unfold cards_list_call
    rw [if_neg]
    intro hall
    have hmem : (("pageSize", PyVal.intV 100) : String × PyVal) ∈
        filters ++ [("page", PyVal.intV 1), ("pageSize", PyVal.intV 100)] := by
      simp
    have hc := List.all_eq_true.mp hall _ hmem
    exact absurd hc (by decide)
  unfold get_all_cards
  simp only [gacLoop, hbad]

/-- C2 witness: concrete server and filters. -/
theorem c2_no_safety_cap_witness :
    get_all_cards (fun _ => (⟨[], false⟩ : PageResult)) [("rarity", PyVal.strV "rare")] 5 =
      (.raised .typeError, 1) :=
  c2_no_safety_cap _ _ 5 (by decide)

/-- The three-page server of the claim: pages 1 and 2 hold 100 cards
each with `hasNext = true`, page 3 holds 17 cards with
`hasNext = false`. -/
def server3 : Int → PageResult := fun p =>
  if p = 1 then ⟨List.replicate 100 "alpha", true⟩
  else if p = 2 then ⟨List.replicate 100 "beta", true⟩
  else ⟨List.replicate 17 "gamma", false⟩

/-- C9: on the 100/100/17 three-page scenario the aggregator does not
return 217 items over 3 calls — the first `cards.list(**params)` call
raises `TypeError` because `get_all_cards` passes the keyword `pageSize`
while `CardsAPI.list`'s parameter is `page_size`; exactly 1 call is
issued. -/
theorem c9_pagination_type_error :
    get_all_cards server3 [] 10 = (.raised .typeError, 1) ∧
    (get_all_cards server3 [] 10).2 ≠ 3 := by
  exact ⟨by decide, by decide⟩

/-- A 302 response whose body carries an error object: outside 200–299,
yet `_request` raises nothing, because requests' `response.ok` is
`status_code < 400`. -/
def resp302 : HttpResp :=
  { status := 302
  , headers := fun _ => none
  , body := some { data := none
                 , error := .obj ⟨some "REDIRECTED", some "moved"⟩
                 , meta := .absent } }

/-- C3 counterexample: status 302 lies outside 200–299, but `_request`
returns an `ApiResponse` (no `APIError` is raised), and that response's
`success` is `false` because the body's `error` field is present. -/
theorem c3_counterexample :
    DadDeckAPI._request 30 (.response resp302) =
      .ok ⟨none, some ⟨some "REDIRECTED", some "moved"⟩, none, none⟩ ∧
    ApiResponse.success ⟨none, some ⟨some "REDIRECTED", some "moved"⟩, none, none⟩ = false := by
  exact ⟨by decide, rfl⟩

/-- C3 (amended): the boundary `_request` actually tests is requests'
`response.ok`, i.e. `status < 400`, and success of the returned response
mirrors the body's `error` field: for every response with a parseable
body (whose `error`/`meta` fields, when present, are objects) and
parseable rate-limit headers, a status below 400 yields an `ApiResponse`
(no `APIError` constructed, the classification code never runs) whose
`success` is true exactly when the body's `error` field is absent or
null; a status of 400 or above raises an `APIError`. -/
theorem c3_ok_boundary (tmo : Int) (r : HttpResp) (b : Body) (rl : Option RateLimitInfo)
    (hb : r.body = some b)
    (hh : DadDeckAPI._parse_rate_limit_headers r.headers = .ok rl)
    (he : b.error ≠ ErrField.nullVal) (hm : b.meta ≠ MetaField.nullVal) :
    (r.status < 400 →
      DadDeckAPI._request tmo (.response r) =
        .ok ⟨b.data, b.error.toOpt, b.meta.toOpt, rl⟩ ∧
      ((ApiResponse.mk b.data b.error.toOpt b.meta.toOpt rl).success = true ↔
        b.error.toOpt = none)) ∧
    (400 ≤ r.status →
      ∃ e : APIError, DadDeckAPI._request tmo (.response r) = .error (.api e)) := by
  constructor
  · intro hlt
    refine ⟨request_ok_eq tmo r b rl hlt hb hh, ?_⟩
    simp [ApiResponse.success, Option.isNone_iff_eq_none]
  · intro hge
    exact ⟨_, request_error_eq tmo r b rl hge hb hh he hm⟩

/-- C3 witness: a 200 response with a data payload and no error field
comes back as a successful `ApiResponse`. -/
theorem c3_ok_boundary_witness :
    DadDeckAPI._request 30
        (.response ⟨200, fun _ => none, some ⟨some "cards", .absent, .absent⟩⟩) =
      .ok ⟨some "cards", none, none, none⟩ :=
  ((c3_ok_boundary 30 ⟨200, fun _ => none, some ⟨some "cards", .absent, .absent⟩⟩
      ⟨some "cards", .absent, .absent⟩ none rfl rfl (by decide) (by decide)).1
    (by decide)).1

/-- C4 counterexample: with the limit header present and the remaining
header unparseable, the parser does not default `remaining` to 0 — the
`int()` call raises `ValueError`. -/
theorem c4_counterexample :
    DadDeckAPI._parse_rate_limit_headers
      (fun s => if s = "X-RateLimit-Limit" then some "100"
                else if s = "X-RateLimit-Remaining" then some "abc" else none) =
      .error .valueError := by
  decide

/-- C4 (amended): an absent (or empty, hence falsy) limit header yields
no `RateLimitInfo` and no error; with a parseable limit present,
`remaining` defaults to 0 only when the remaining header is missing
(and `tier` to "unknown" when the tier header is absent, via `getD`),
while a present but unparseable remaining header raises `ValueError`. -/
theorem c4_header_defaults (h : String → Option String) :
    ((h "X-RateLimit-Limit" = none ∨ h "X-RateLimit-Limit" = some "") →
      DadDeckAPI._parse_rate_limit_headers h = .ok none) ∧
    (∀ l n, h "X-RateLimit-Limit" = some l → l ≠ "" → pyInt? l = some n →
      h "X-RateLimit-Remaining" = none → h "X-RateLimit-Reset" = none →
      DadDeckAPI._parse_rate_limit_headers h =
        .ok (some ⟨n, 0, none, (h "X-RateLimit-Tier").getD "unknown"⟩)) ∧
    (∀ l s, h "X-RateLimit-Limit" = some l → l ≠ "" →
      h "X-RateLimit-Remaining" = some s → pyInt? s = none →
      DadDeckAPI._parse_rate_limit_headers h = .error .valueError) := by
  refine ⟨?_, ?_, ?_⟩
  · rintro (h1 | h1) <;>
      simp [DadDeckAPI._parse_rate_limit_headers, h1]
  · intro l n h1 h2 h3 h4 h5
    simp [DadDeckAPI._parse_rate_limit_headers, h1, h2, h3, h4, h5]
  · intro l s h1 h2 h3 h4
    simp [DadDeckAPI._parse_rate_limit_headers, h1, h2, h3, h4]

/-- C4 witness: limit "100" with all other headers absent parses to
limit 100, remaining 0, no reset, tier "unknown". -/
theorem c4_header_defaults_witness :
    DadDeckAPI._parse_rate_limit_headers
        (fun s => if s = "X-RateLimit-Limit" then some "100" else none) =
      .ok (some ⟨100, 0, none, "unknown"⟩) :=
  (c4_header_defaults _).2.1 "100" 100 (by decide) (by decide) (by decide)
    (by decide) (by decide)

/-- C5 counterexample: a 500 response with an unparseable body does not
produce the documented defaults API_ERROR / "Unknown error" — the JSON
decode failure is caught by the `RequestException` handler and surfaces
as a NETWORK_ERROR `APIError` instead. -/
theorem c5_counterexample :
    DadDeckAPI._request 30 (.response ⟨500, fun _ => none, none⟩) =
      .error (.api ⟨"NETWORK_ERROR", DadDeckAPI.jsonDecodeMsg, none, none, none⟩) ∧
    "NETWORK_ERROR" ≠ "API_ERROR" := by
  exact ⟨by decide, by decide⟩

/-- C5 (amended): for every response with status 400 or above, a
parseable JSON body whose `error`/`meta` fields, when present, are
objects, and parseable rate-limit headers, the raised `APIError`'s code
and message equal the nested error object's fields when present and
fall back exactly to "API_ERROR" / "Unknown error" when absent, and
`request_id` is taken from the body's nested meta object when present;
an unparseable body instead surfaces as a NETWORK_ERROR `APIError`
(see the counterexample). -/
theorem c5_error_fields (tmo : Int) (r : HttpResp) (b : Body) (rl : Option RateLimitInfo)
    (hge : 400 ≤ r.status) (hb : r.body = some b)
    (hh : DadDeckAPI._parse_rate_limit_headers r.headers = .ok rl)
    (he : b.error ≠ ErrField.nullVal) (hm : b.meta ≠ MetaField.nullVal) :
    DadDeckAPI._request tmo (.response r) =
      .error (.api ⟨(b.error.getObj).code.getD "API_ERROR",
                    (b.error.getObj).message.getD "Unknown error",
                    some r.status, rl.map RLPayload.infoPayload,
                    b.meta.requestIdOf⟩) :=
  request_error_eq tmo r b rl hge hb hh he hm

/-- C5 witness: a 404 response whose body names code, message and
requestId is classified with exactly those fields. -/
theorem c5_error_fields_witness :
    DadDeckAPI._request 30
        (.response ⟨404, fun _ => none,
          some ⟨none, .obj ⟨some "NOT_FOUND", some "missing"⟩, .obj ⟨some "req-1"⟩⟩⟩) =
      .error (.api ⟨"NOT_FOUND", "missing", some 404, none, some "req-1"⟩) :=
  c5_error_fields 30 ⟨404, fun _ => none,
      some ⟨none, .obj ⟨some "NOT_FOUND", some "missing"⟩, .obj ⟨some "req-1"⟩⟩⟩
    ⟨none, .obj ⟨some "NOT_FOUND", some "missing"⟩, .obj ⟨some "req-1"⟩⟩ none
    (by decide) rfl rfl (by decide) (by decide)

/-- A 429 rate-limited response carrying the full set of rate-limit
headers, including a reset time. -/
def resp429 : HttpResp :=
  { status := 429
  , headers := fun s =>
      if s = "X-RateLimit-Limit" then some "1000"
      else if s = "X-RateLimit-Remaining" then some "0"
      else if s = "X-RateLimit-Reset" then some "1700000000"
      else none
  , body := some { data := none
                 , error := .obj ⟨some "RATE_LIMIT_EXCEEDED", some "Too many requests"⟩
                 , meta := .absent } }

/-- The `APIError` that `_request` raises for `resp429`: its
`rate_limit` is the `RateLimitInfo` dataclass itself. -/
def e429 : APIError :=
  ⟨"RATE_LIMIT_EXCEEDED", "Too many requests", some 429,
   some (.infoPayload ⟨1000, 0, some 1700000000000, "unknown"⟩), none⟩

/-- C7: the rate-limit snapshot `_request` attaches to a raised
`APIError` is the `RateLimitInfo` dataclass, although the `APIError`
constructor declares `Optional[Dict]`; `get_retry_delay` then evaluates
`self.rate_limit.get("resetAt")`, and a dataclass has no `.get`, so the
query raises `AttributeError` instead of returning
`max(0, resetAt - now)` — here the claim would have required 10000 ms
(reset 10 s in the future), which is precisely what the dict shape the
method was written against would return. -/
theorem c7_retry_delay_attribute_error :
    DadDeckAPI._request 30 (.response resp429) = .error (.api e429) ∧
    e429.get_retry_delay 1699999990000 = .error .attributeError ∧
    (APIError.mk "RATE_LIMIT_EXCEEDED" "Too many requests" (some 429)
        (some (.dictPayload (some 1700000000000))) none).get_retry_delay
      1699999990000 = .ok 10000 := by
  exact ⟨by decide, rfl, by decide⟩
